import Mathlib

/-!
Verification of the phlow RBAC subsystem (credential model, store, cache,
verifier, and the role-authentication orchestrator) against its
natural-language specification.

The Python sources are shallowly embedded:
* `src/phlow/rbac/verifier.py`  → `verify_presentation` and helpers,
* `src/phlow/rbac/store.py`     → the credential-store operations,
* `src/phlow/middleware.py`     → `authenticate_with_role`,
* `rbac/types.py` and `rbac/cache.py` are absent from the sources
  (only their callers are); the data shapes and the cache are modelled
  from the specification, as marked on each definition.

Timestamps (ISO-8601 strings in Python, parsed with
`datetime.fromisoformat`) are modelled by their parsed instants as
integers, so that the order comparisons of the source are order
comparisons on `Int`.  File I/O is modelled by passing the written data
structure to the reader directly.
-/

/-- Instants, standing for parsed `datetime` values. -/
abbrev Time := Int

/-! ## JSON values as hashed by the verifier

`RoleCredentialVerifier._create_credential_hash` serializes the
credential with `json.dumps(credential_dict, sort_keys=True)` and hashes
the result with SHA-256.  Credential dictionaries are two-level: a
top-level object whose values are strings, arrays of strings, or nested
one-level objects.  `JLeaf`/`JVal` capture exactly those shapes. -/

/-- A JSON value nested inside an object of a credential dictionary. -/
inductive JLeaf where
  | s (v : String)
  | n (v : Int)
  | arr (vs : List String)
deriving DecidableEq

/-- A top-level JSON value of a credential dictionary. -/
inductive JVal where
  | leaf (v : JLeaf)
  | obj (kvs : List (String × JLeaf))
deriving DecidableEq

/-- Hexadecimal digit characters, as produced by `json.dumps` escapes and
by `hashlib.sha256(...).hexdigest()`. -/
def hexDigit (n : Nat) : Char :=
  "0123456789abcdef".data.getD n '0'

/-- One character escaped as `json.dumps` (default `ensure_ascii=True`)
renders it inside a string literal. -/
def escapeChar (c : Char) : String :=
  if c = '"' then "\\\""
  else if c = '\\' then "\\\\"
  else if c = Char.ofNat 10 then "\\n"
  else if c = Char.ofNat 13 then "\\r"
  else if c = Char.ofNat 9 then "\\t"
  else if c = Char.ofNat 8 then "\\b"
  else if c = Char.ofNat 12 then "\\f"
  else if c.toNat < 32 ∨ c.toNat > 126 then
    "\\u" ++ String.mk [hexDigit (c.toNat / 4096 % 16), hexDigit (c.toNat / 256 % 16),
                        hexDigit (c.toNat / 16 % 16), hexDigit (c.toNat % 16)]
  else String.singleton c

/-- A JSON string literal as `json.dumps` renders it. -/
def renderString (s : String) : String :=
  "\"" ++ String.join (s.data.map escapeChar) ++ "\""

/-- Ordering of object entries by key, as `sort_keys=True` orders them. -/
def keyLE (a b : String × String) : Prop := a.1 ≤ b.1

instance : DecidableRel keyLE := fun a b => inferInstanceAs (Decidable (a.1 ≤ b.1))

instance : IsTotal (String × String) keyLE := ⟨fun a b => le_total a.1 b.1⟩

instance : IsTrans (String × String) keyLE := ⟨fun _ _ _ hab hbc => le_trans hab hbc⟩

/-- Sort rendered object entries by key (`json.dumps(..., sort_keys=True)`). -/
def sortByKey (l : List (String × String)) : List (String × String) :=
  List.insertionSort keyLE l

/-- Render an object from its already-rendered entries, keys sorted. -/
def dumpObjSorted (kvs : List (String × String)) : String :=
  "\x7b" ++ String.intercalate ", "
    ((sortByKey kvs).map (fun kv => renderString kv.1 ++ ": " ++ kv.2)) ++ "\x7d"

/-- Serialize a nested JSON value. -/
def dumpLeaf : JLeaf → String
  | .s v => renderString v
  | .n v => toString v
  | .arr vs => "[" ++ String.intercalate ", " (vs.map renderString) ++ "]"

/-- Serialize a top-level JSON value, object keys sorted at every level. -/
def dumpVal : JVal → String
  | .leaf v => dumpLeaf v
  | .obj kvs => dumpObjSorted (kvs.map (fun kv => (kv.1, dumpLeaf kv.2)))

/-- `json.dumps(d, sort_keys=True)` on a credential dictionary. -/
def dumpsSorted (top : List (String × JVal)) : String :=
  dumpObjSorted (top.map (fun kv => (kv.1, dumpVal kv.2)))

/-! ## SHA-256 (`hashlib.sha256(...).hexdigest()`)

A direct executable rendering of FIPS 180-4 over the byte sequence of
the (ASCII) serialized credential, 32-bit words as `Nat` reduced
`% 2^32`. -/

/-- Reduce to a 32-bit word. -/
def wmask (x : Nat) : Nat := x % 4294967296

/-- 32-bit addition. -/
def wadd (a b : Nat) : Nat := (a + b) % 4294967296

/-- 32-bit right rotation. -/
def rotr (x n : Nat) : Nat := wmask ((x >>> n) ||| (x <<< (32 - n)))

/-- SHA-256 `Ch`. -/
def shaCh (x y z : Nat) : Nat := (x &&& y) ^^^ ((x ^^^ 4294967295) &&& z)

/-- SHA-256 `Maj`. -/
def shaMaj (x y z : Nat) : Nat := (x &&& y) ^^^ (x &&& z) ^^^ (y &&& z)

/-- SHA-256 `Σ₀`. -/
def bigSigma0 (x : Nat) : Nat := rotr x 2 ^^^ rotr x 13 ^^^ rotr x 22

/-- SHA-256 `Σ₁`. -/
def bigSigma1 (x : Nat) : Nat := rotr x 6 ^^^ rotr x 11 ^^^ rotr x 25

/-- SHA-256 `σ₀`. -/
def smallSigma0 (x : Nat) : Nat := rotr x 7 ^^^ rotr x 18 ^^^ (x >>> 3)

/-- SHA-256 `σ₁`. -/
def smallSigma1 (x : Nat) : Nat := rotr x 17 ^^^ rotr x 19 ^^^ (x >>> 10)

/-- SHA-256 round constants. -/
def shaK : List Nat :=
  [1116352408, 1899447441, 3049323471, 3921009573, 961987163, 1508970993,
   2453635748, 2870763221, 3624381080, 310598401, 607225278, 1426881987,
   1925078388, 2162078206, 2614888103, 3248222580, 3835390401, 4022224774,
   264347078, 604807628, 770255983, 1249150122, 1555081692, 1996064986,
   2554220882, 2821834349, 2952996808, 3210313671, 3336571891, 3584528711,
   113926993, 338241895, 666307205, 773529912, 1294757372, 1396182291,
   1695183700, 1986661051, 2177026350, 2456956037, 2730485921, 2820302411,
   3259730800, 3345764771, 3516065817, 3600352804, 4094571909, 275423344,
   430227734, 506948616, 659060556, 883997877, 958139571, 1322822218,
   1537002063, 1747873779, 1955562222, 2024104815, 2227730452, 2361852424,
   2428436474, 2756734187, 3204031479, 3329325298]

/-- SHA-256 working state. -/
structure Hash8 where
  a : Nat
  b : Nat
  c : Nat
  d : Nat
  e : Nat
  f : Nat
  g : Nat
  h : Nat
deriving DecidableEq

/-- SHA-256 initial hash value. -/
def shaH0 : Hash8 :=
  ⟨1779033703, 3144134277, 1013904242, 2773480762,
   1359893119, 2600822924, 528734635, 1541459225⟩

/-- Big-endian packing of bytes into 32-bit words. -/
def toWords : List Nat → List Nat
  | a :: b :: c :: d :: rest => (((a * 256 + b) * 256 + c) * 256 + d) :: toWords rest
  | _ => []

/-- Extend 16 message-schedule words to 64. -/
def extendSchedule (w16 : List Nat) : Array Nat :=
  (List.range 48).foldl
    (fun ws _ =>
      let wa := ws.getD (ws.size - 2) 0
      let wb := ws.getD (ws.size - 7) 0
      let wc := ws.getD (ws.size - 15) 0
      let wd := ws.getD (ws.size - 16) 0
      ws.push (wadd (wadd (smallSigma1 wa) wb) (wadd (smallSigma0 wc) wd)))
    w16.toArray

/-- One SHA-256 round. -/
def shaRound (st : Hash8) (k w : Nat) : Hash8 :=
  let t1 := wadd (wadd st.h (bigSigma1 st.e)) (wadd (shaCh st.e st.f st.g) (wadd k w))
  let t2 := wadd (bigSigma0 st.a) (shaMaj st.a st.b st.c)
  ⟨wadd t1 t2, st.a, st.b, st.c, wadd st.d t1, st.e, st.f, st.g⟩

/-- Compress one 16-word block into the running hash. -/
def compressBlock (h : Hash8) (block : List Nat) : Hash8 :=
  let ws := extendSchedule block
  let fin := (List.range 64).foldl
    (fun st i => shaRound st (shaK.getD i 0) (ws.getD i 0)) h
  ⟨wadd h.a fin.a, wadd h.b fin.b, wadd h.c fin.c, wadd h.d fin.d,
   wadd h.e fin.e, wadd h.f fin.f, wadd h.g fin.g, wadd h.h fin.h⟩

/-- Fold the compression over all 16-word blocks (fuel-driven loop over a
list whose length is a multiple of 16). -/
def shaBlocks : Nat → Hash8 → List Nat → Hash8
  | 0, h, _ => h
  | _ + 1, h, [] => h
  | fuel + 1, h, ws => shaBlocks fuel (compressBlock h (ws.take 16)) (ws.drop 16)

/-- SHA-256 padding of a byte sequence. -/
def shaPad (msg : List Nat) : List Nat :=
  let l := msg.length
  let zeros := (119 - l % 64) % 64
  let bits := 8 * l
  msg ++ [128] ++ List.replicate zeros 0 ++
    [bits / 72057594037927936 % 256, bits / 281474976710656 % 256,
     bits / 1099511627776 % 256, bits / 4294967296 % 256,
     bits / 16777216 % 256, bits / 65536 % 256, bits / 256 % 256, bits % 256]

/-- A 32-bit word as eight lowercase hex digits. -/
def wordToHex (w : Nat) : String :=
  String.mk [hexDigit (w / 268435456 % 16), hexDigit (w / 16777216 % 16),
             hexDigit (w / 1048576 % 16), hexDigit (w / 65536 % 16),
             hexDigit (w / 4096 % 16), hexDigit (w / 256 % 16),
             hexDigit (w / 16 % 16), hexDigit (w % 16)]

/-- `hashlib.sha256(s.encode()).hexdigest()` for the ASCII strings produced
by `json.dumps` (bytes are the code points of the characters). -/
def sha256hex (s : String) : String :=
  let bytes := s.data.map Char.toNat
  let ws := toWords (shaPad bytes)
  let h := shaBlocks ws.length shaH0 ws
  wordToHex h.a ++ wordToHex h.b ++ wordToHex h.c ++ wordToHex h.d ++
  wordToHex h.e ++ wordToHex h.f ++ wordToHex h.g ++ wordToHex h.h

/-! ## Credential & presentation model

`src/phlow/rbac/types.py` is absent from the sources; the record shapes
below are modelled from the specification (§3 DATA MODEL) and from their
construction sites in `store.py`, `middleware.py` and the rbac example. -/

/-- Modelled from the spec: credential-level proof — "proof type, created
timestamp, verification method identifier, signature value"
(`rbac/types.py` is missing).  The verifier checks each field for
truthiness, so emptiness of the strings is what matters. -/
structure CredentialProof where
  type : String
  created : String
  verification_method : String
  signature : String
deriving DecidableEq

/-- Modelled from the spec: "holder DID plus either a single role string
or multiple role strings" (`rbac/types.py` is missing). -/
structure CredentialSubject where
  id : String
  role : Option String := none
  roles : Option (List String) := none
deriving DecidableEq

/-- Modelled from the spec: `CredentialSubject.get_roles()` "returns the
set of role strings present (handles both single-role and multi-role
subject shapes)" (`rbac/types.py` is missing). -/
def CredentialSubject.get_roles (cs : CredentialSubject) : List String :=
  (match cs.role with | some r => [r] | none => []) ++ cs.roles.getD []

/-- Modelled from the spec: a Role Credential record (§3); field names
follow the snake-case Python attributes, aliases are the camelCase JSON
keys used by `dict(by_alias=True)` (`rbac/types.py` is missing).
`expiration_date` holds the parsed instant (see the module docstring). -/
structure RoleCredential where
  id : String
  issuer : String
  type : List String := ["VerifiableCredential", "RoleCredential"]
  issuance_date : String
  expiration_date : Option Time := none
  credential_subject : CredentialSubject
  proof : Option CredentialProof := none
deriving DecidableEq

/-- Modelled from the spec: presentation-level proof ("binds holder +
challenge"); only its presence is inspected by the source verifier. -/
structure PresentationProof where
  type : String
  created : String
  verification_method : String
  signature : String
  challenge : Option String := none
deriving DecidableEq

/-- Modelled from the spec: a Verifiable Presentation "wraps one or more
RoleCredentials plus `holder` and an optional `proof`"
(`rbac/types.py` is missing). -/
structure VerifiablePresentation where
  verifiable_credential : List RoleCredential
  holder : Option String := none
  proof : Option PresentationProof := none
deriving DecidableEq

/-- Modelled from the spec: the result record returned by
`verify_presentation` (`rbac/types.py` is missing). -/
structure RoleVerificationResult where
  is_valid : Bool
  role : Option String := none
  issuer_did : Option String := none
  expires_at : Option Time := none
  credential_hash : Option String := none
  error_message : Option String := none
deriving DecidableEq

/-- Modelled from the spec: the request message built in
`authenticate_with_role` (`rbac/types.py` is missing); the example
responder also reads a `challenge` field. -/
structure RoleCredentialRequest where
  required_role : String
  context : Option String := none
  nonce : String
  challenge : Option String := none
deriving DecidableEq

/-- Modelled from the spec: the response message — "either a
`presentation` or an `error` message, plus the same `nonce`"
(`rbac/types.py` is missing). -/
structure RoleCredentialResponse where
  type : String := "role-credential-response"
  nonce : String
  presentation : Option VerifiablePresentation := none
  error : Option String := none
deriving DecidableEq

/-! ## Credential serialization (pydantic `dict(by_alias=True, exclude_none=True)`) -/

/-- The object entries of `credential_subject` under
`by_alias=True, exclude_none=True`. -/
def subjectPairs (cs : CredentialSubject) : List (String × JLeaf) :=
  [("id", JLeaf.s cs.id)] ++
  (match cs.role with | some r => [("role", JLeaf.s r)] | none => []) ++
  (match cs.roles with | some rs => [("roles", JLeaf.arr rs)] | none => [])

/-- The object entries of a credential `proof` under `by_alias=True`. -/
def proofPairs (p : CredentialProof) : List (String × JLeaf) :=
  [("type", JLeaf.s p.type), ("created", JLeaf.s p.created),
   ("verificationMethod", JLeaf.s p.verification_method),
   ("signature", JLeaf.s p.signature)]

/-- `credential.model_dump(by_alias=True, exclude_none=True)` /
`credential.dict(by_alias=True, exclude_none=True)`: the credential as a
JSON dictionary, `None` fields omitted. -/
def credentialPairs (c : RoleCredential) : List (String × JVal) :=
  [("id", JVal.leaf (JLeaf.s c.id)), ("issuer", JVal.leaf (JLeaf.s c.issuer)),
   ("type", JVal.leaf (JLeaf.arr c.type)),
   ("issuanceDate", JVal.leaf (JLeaf.s c.issuance_date))] ++
  (match c.expiration_date with
   | some t => [("expirationDate", JVal.leaf (JLeaf.n t))] | none => []) ++
  [("credentialSubject", JVal.obj (subjectPairs c.credential_subject))] ++
  (match c.proof with | some p => [("proof", JVal.obj (proofPairs p))] | none => [])

/-- SHA-256 of the key-sorted serialization of a credential dictionary
(the body of `RoleCredentialVerifier._create_credential_hash`). -/
def credential_hash_of_repr (o : List (String × JVal)) : String :=
  sha256hex (dumpsSorted o)

/-- `RoleCredentialVerifier._create_credential_hash`. -/
def create_credential_hash (c : RoleCredential) : String :=
  credential_hash_of_repr (credentialPairs c)

/-- `RoleCredentialVerifier._parse_expiration`: ISO parsing is modelled
by the timestamp already being the parsed instant. -/
def parse_expiration (expiration_date : Option Time) : Option Time :=
  expiration_date

/-! ## Credential Verifier (`src/phlow/rbac/verifier.py`) -/

/-- `RoleCredentialVerifier._verify_credential_signature`: mock check —
requires a proof whose `type`, `created`, `verification_method` and
`signature` fields are all truthy (non-empty), and nothing else. -/
def verify_credential_signature (c : RoleCredential) : Bool :=
  match c.proof with
  | none => false
  | some p =>
    p.type ≠ "" && p.created ≠ "" && p.verification_method ≠ "" && p.signature ≠ ""

/-- `RoleCredentialVerifier._verify_presentation_signature`: mock check —
requires only that the presentation carries some proof. -/
def verify_presentation_signature (p : VerifiablePresentation) : Bool :=
  p.proof.isSome

/-- `RoleCredentialVerifier._verify_role_credential`, with the current
instant `now` passed explicitly (the source reads `datetime.now`). -/
def verify_role_credential (c : RoleCredential) (required_role : String)
    (now : Time) : RoleVerificationResult :=
  if "RoleCredential" ∉ c.type then
    { is_valid := false, error_message := some "Not a role credential" }
  else if required_role ∉ c.credential_subject.get_roles then
    { is_valid := false,
      error_message := some
        ("Required role '" ++ required_role ++ "' not found in credential") }
  else if (match c.expiration_date with
           | some expiry => decide (expiry < now)
           | none => false) then
    { is_valid := false, error_message := some "Credential has expired" }
  else if ¬ verify_credential_signature c then
    { is_valid := false, error_message := some "Invalid credential signature" }
  else
    { is_valid := true, role := some required_role, issuer_did := some c.issuer,
      expires_at := parse_expiration c.expiration_date }

/-- `RoleCredentialVerifier.verify_presentation`. -/
def verify_presentation (p : VerifiablePresentation) (required_role : String)
    (now : Time) : RoleVerificationResult :=
  if p.verifiable_credential.isEmpty then
    { is_valid := false, error_message := some "No credentials in presentation" }
  else
    match p.verifiable_credential.find? (fun c => c.type.contains "RoleCredential") with
    | none =>
      { is_valid := false,
        error_message := some "No role credential found in presentation" }
    | some role_credential =>
      let verification_result := verify_role_credential role_credential required_role now
      if ¬ verification_result.is_valid then verification_result
      else if ¬ verify_presentation_signature p then
        { is_valid := false, error_message := some "Invalid presentation signature" }
      else
        { is_valid := true, role := some required_role,
          issuer_did := some role_credential.issuer,
          expires_at := parse_expiration role_credential.expiration_date,
          credential_hash := some (create_credential_hash role_credential) }

/-! ## Credential Store (`src/phlow/rbac/store.py`)

`self._credentials: dict[str, RoleCredential]` is modelled as an
association list with Python-dict semantics (overwrite in place, append
when absent); file persistence is modelled by handing the written data
structure to the reader. -/

/-- The in-memory credential index `dict[str, RoleCredential]`. -/
abbrev CredentialMap := List (String × RoleCredential)

/-- `self._credentials[role] = credential` (Python dict update). -/
def dictInsert : CredentialMap → String → RoleCredential → CredentialMap
  | [], k, v => [(k, v)]
  | kv :: rest, k, v =>
    if kv.1 = k then (k, v) :: rest else kv :: dictInsert rest k v

/-- `RoleCredentialStore.get_credential`. -/
def get_credential (st : CredentialMap) (role : String) : Option RoleCredential :=
  (st.find? (fun kv => kv.1 == role)).map (fun kv => kv.2)

/-- `RoleCredentialStore.has_role`. -/
def has_role (st : CredentialMap) (role : String) : Bool :=
  st.any (fun kv => kv.1 == role)

/-- `RoleCredentialStore.add_credential`: index the credential under
every role it grants. -/
def add_credential (st : CredentialMap) (c : RoleCredential) : CredentialMap :=
  c.credential_subject.get_roles.foldl (fun s r => dictInsert s r c) st

/-- `RoleCredentialStore.create_presentation`: `None` when no credential
is stored for the role; otherwise wrap the stored credential and set the
holder.  The `challenge` argument is accepted but not used by the source
("TODO: Add cryptographic proof to presentation"), so the presentation is
returned without any proof. -/
def create_presentation (st : CredentialMap) (role : String)
    (holder_did : String) (challenge : Option String := none) :
    Option VerifiablePresentation :=
  match get_credential st role with
  | none => none
  | some credential =>
    let _ := challenge
    some { verifiable_credential := [credential], holder := some holder_did }

/-- `RoleCredentialStore.export_credential_to_file`: the file content is
the serialized dictionary `credential.dict(by_alias=True,
exclude_none=True)`; `none` models the `False` return when the role has
no stored credential. -/
def export_credential_to_file (st : CredentialMap) (role : String) :
    Option (List (String × JVal)) :=
  (get_credential st role).map credentialPairs

/-- Dictionary lookup on parsed JSON (`data[key]` / pydantic field
population by alias). -/
def jLookup (d : List (String × JVal)) (k : String) : Option JVal :=
  (d.find? (fun kv => kv.1 == k)).map (fun kv => kv.2)

/-- Dictionary lookup inside a nested JSON object. -/
def jlLookup (d : List (String × JLeaf)) (k : String) : Option JLeaf :=
  (d.find? (fun kv => kv.1 == k)).map (fun kv => kv.2)

/-- Modelled from the spec: pydantic validation
`CredentialSubject(**data)` — `id` required string, `role` an optional
string, `roles` an optional list of strings (`rbac/types.py` is
missing). -/
def parseSubject (kvs : List (String × JLeaf)) : Option CredentialSubject :=
  match jlLookup kvs "id" with
  | some (JLeaf.s i) =>
    let ro : Option (Option String) :=
      match jlLookup kvs "role" with
      | none => some none
      | some (JLeaf.s r) => some (some r)
      | some _ => none
    let rs : Option (Option (List String)) :=
      match jlLookup kvs "roles" with
      | none => some none
      | some (JLeaf.arr a) => some (some a)
      | some _ => none
    match ro, rs with
    | some ro', some rs' => some { id := i, role := ro', roles := rs' }
    | _, _ => none
  | _ => none

/-- Modelled from the spec: pydantic validation of a credential proof —
all four fields required strings (`rbac/types.py` is missing). -/
def parseProof (kvs : List (String × JLeaf)) : Option CredentialProof :=
  match jlLookup kvs "type", jlLookup kvs "created",
        jlLookup kvs "verificationMethod", jlLookup kvs "signature" with
  | some (JLeaf.s t), some (JLeaf.s cr), some (JLeaf.s vm), some (JLeaf.s sg) =>
    some { type := t, created := cr, verification_method := vm, signature := sg }
  | _, _, _, _ => none

/-- Modelled from the spec: pydantic validation `RoleCredential(**data)` —
`id`, `issuer`, `issuanceDate`, `credentialSubject` required, `type`
defaulted, `expirationDate` and `proof` optional (`rbac/types.py` is
missing). -/
def parseCredential (d : List (String × JVal)) : Option RoleCredential :=
  match jLookup d "id", jLookup d "issuer", jLookup d "issuanceDate" with
  | some (JVal.leaf (JLeaf.s i)), some (JVal.leaf (JLeaf.s iss)),
      some (JVal.leaf (JLeaf.s isd)) =>
    let ty : Option (List String) :=
      match jLookup d "type" with
      | none => some ["VerifiableCredential", "RoleCredential"]
      | some (JVal.leaf (JLeaf.arr ts)) => some ts
      | some _ => none
    let ex : Option (Option Time) :=
      match jLookup d "expirationDate" with
      | none => some none
      | some (JVal.leaf (JLeaf.n t)) => some (some t)
      | some _ => none
    let cs : Option CredentialSubject :=
      match jLookup d "credentialSubject" with
      | some (JVal.obj kvs) => parseSubject kvs
      | _ => none
    let pr : Option (Option CredentialProof) :=
      match jLookup d "proof" with
      | none => some none
      | some (JVal.obj kvs) => (parseProof kvs).map some
      | some _ => none
    match ty, ex, cs, pr with
    | some ty', some ex', some cs', some pr' =>
      some { id := i, issuer := iss, type := ty', issuance_date := isd,
             expiration_date := ex', credential_subject := cs', proof := pr' }
    | _, _, _, _ => none
  | _, _, _ => none

/-- `RoleCredentialStore.import_credential_from_file`: parse the file
data as a credential and add it; `none` models the `False` return on any
failure. -/
def import_credential_from_file (d : List (String × JVal))
    (st : CredentialMap) : Option CredentialMap :=
  (parseCredential d).map (add_credential st)

/-! ## Role Cache (`src/phlow/rbac/cache.py`, absent from the sources) -/

/-- Modelled from the spec: a cached verification receipt
`(agent_id, role) → ⟨credential_hash, issuer_did, verified_at,
expires_at⟩` (§3 `CachedRoleEntry`; `rbac/cache.py` is missing). -/
structure CachedRoleEntry where
  credential_hash : String
  issuer_did : String
  verified_at : Time
  expires_at : Time
deriving DecidableEq

/-- Modelled from the spec: `RoleCache.is_expired`:
"`now() >= entry.expires_at`" (§4.3; `rbac/cache.py` is missing). -/
def is_expired (e : CachedRoleEntry) (now : Time) : Bool :=
  now ≥ e.expires_at

/-! ## Role Authentication Orchestrator (`src/phlow/middleware.py`)

`PhlowMiddleware.authenticate_with_role` is embedded as a function of
the data its collaborators return: the resolved `agent_id` (base token
authentication), the Role Cache entry for `(agent_id, required_role)`,
the current instant, the generated nonce (`_generate_nonce` draws 16
random alphanumeric characters), and the transport response
(`_send_role_credential_request`; `none` models a falsy response).
Alongside the outcome it returns the observable effects: how many remote
credential requests were sent, how many presentations were passed to the
verifier, and the cache writes performed. -/

/-- Outcome of one authorization attempt: `granted` carries
`context.verified_roles`, `denied` the `AuthenticationError` message. -/
inductive AuthOutcome where
  | granted (verified_roles : List String)
  | denied (msg : String)
deriving DecidableEq

/-- Arguments of a `role_cache.cache_verified_role` call. -/
structure CacheWrite where
  agent_id : String
  role : String
  credential_hash : Option String
  issuer_did : Option String
  expires_at : Option Time
deriving DecidableEq

/-- Observable side effects of one `authenticate_with_role` run. -/
structure Effects where
  remote_requests : Nat
  verifications : Nat
  cache_writes : List CacheWrite
deriving DecidableEq

/-- The cache consultation
`cached_role and not self.role_cache.is_expired(cached_role)`. -/
def cache_hit (cached : Option CachedRoleEntry) (now : Time) : Bool :=
  match cached with
  | some e => !(is_expired e now)
  | none => false

/-- Python truthiness of an optional string field: both `None` and the
empty string are falsy. -/
def strTruthy : Option String → Bool
  | none => false
  | some v => v ≠ ""

/-- Python `s or d` for an optional string `s` and a default `d`
(`error_msg = role_response.error or "No valid presentation provided"`). -/
def strOrDefault (s : Option String) (d : String) : String :=
  if strTruthy s then s.getD "" else d

/-- `PhlowMiddleware.authenticate_with_role` (steps after base token
authentication and agent-id resolution).  The branch condition
`if role_response.presentation and not role_response.error` uses Python
truthiness, so an empty-string error behaves like an absent one
(`strTruthy`), and the fallback message uses
`role_response.error or "No valid presentation provided"`
(`strOrDefault`).  Note that the response handling never compares
`role_response.nonce` with the nonce that was sent. -/
def authenticate_with_role (agent_id required_role : String)
    (cached : Option CachedRoleEntry) (now : Time) (nonce : String)
    (response : Option RoleCredentialResponse) : AuthOutcome × Effects :=
  if cache_hit cached now then
    (AuthOutcome.granted [required_role],
     { remote_requests := 0, verifications := 0, cache_writes := [] })
  else
    let request : RoleCredentialRequest :=
      { required_role := required_role,
        context := some ("Access requires '" ++ required_role ++ "' role"),
        nonce := nonce }
    let _ := request
    match response with
    | none =>
      (AuthOutcome.denied
        ("No response received for role '" ++ required_role ++ "' request"),
       { remote_requests := 1, verifications := 0, cache_writes := [] })
    | some role_response =>
      match role_response.presentation, strTruthy role_response.error with
      | some presentation, false =>
        let verification_result := verify_presentation presentation required_role now
        if verification_result.is_valid then
          (AuthOutcome.granted [required_role],
           { remote_requests := 1, verifications := 1,
             cache_writes :=
               [{ agent_id := agent_id, role := required_role,
                  credential_hash := verification_result.credential_hash,
                  issuer_did := verification_result.issuer_did,
                  expires_at := verification_result.expires_at }] })
        else
          (AuthOutcome.denied
            ("Role credential verification failed: " ++
              (verification_result.error_message.getD "None")),
           { remote_requests := 1, verifications := 1, cache_writes := [] })
      | _, _ =>
        (AuthOutcome.denied
          ("Role credential request failed: " ++
            strOrDefault role_response.error "No valid presentation provided"),
         { remote_requests := 1, verifications := 0, cache_writes := [] })

/-! ## Concrete data for witnesses and counterexamples -/

/-- Strict ordering of rendered entries by key. -/
def keyLT (a b : String × String) : Prop := a.1 < b.1

instance : IsAntisymm (String × String) keyLT :=
  ⟨fun _ _ h h' => absurd (lt_trans h h') (lt_irrefl _)⟩

/-- A structurally complete credential proof (the mock verifier accepts
any such proof). -/
def demoProof : CredentialProof :=
  { type := "Ed25519Signature2020", created := "2025-08-01T12:00:00Z",
    verification_method := "did:example:issuer#key-1", signature := "z3demoSig" }

/-- A subject holding the single role "admin". -/
def demoSubject : CredentialSubject :=
  { id := "did:example:agent-1", role := some "admin" }

/-- An unexpired admin credential with a structurally complete proof. -/
def demoCred : RoleCredential :=
  { id := "http://example.org/credentials/admin/123", issuer := "did:example:issuer",
    issuance_date := "2025-08-01T12:00:00Z", credential_subject := demoSubject,
    proof := some demoProof }

/-- A presentation-level proof. -/
def demoPresProof : PresentationProof :=
  { type := "Ed25519Signature2020", created := "2025-08-01T12:00:00Z",
    verification_method := "did:example:agent-1#key-1", signature := "zPresSig" }

/-- A presentation of `demoCred` that passes every verifier check. -/
def demoPresentation : VerifiablePresentation :=
  { verifiable_credential := [demoCred], holder := some "did:example:agent-1",
    proof := some demoPresProof }

/-- An admin credential carrying no proof. -/
def noProofCred : RoleCredential :=
  { id := "http://example.org/credentials/admin/999", issuer := "did:example:issuer",
    issuance_date := "2025-08-01T12:00:00Z", credential_subject := demoSubject,
    proof := none }

/-- A presentation whose only credential has no proof. -/
def noProofPresentation : VerifiablePresentation :=
  { verifiable_credential := [noProofCred], holder := some "did:example:agent-1",
    proof := some demoPresProof }

/-- A presentation whose first role credential fails (no proof) while the
second would satisfy every check. -/
def twoCredPresentation : VerifiablePresentation :=
  { verifiable_credential := [noProofCred, demoCred],
    holder := some "did:example:agent-1", proof := some demoPresProof }

/-- An otherwise-valid credential expiring exactly at instant 100. -/
def boundaryCred : RoleCredential :=
  { id := "http://example.org/credentials/admin/777", issuer := "did:example:issuer",
    issuance_date := "2025-08-01T12:00:00Z", expiration_date := some 100,
    credential_subject := demoSubject, proof := some demoProof }

/-- A presentation of `boundaryCred`. -/
def boundaryPresentation : VerifiablePresentation :=
  { verifiable_credential := [boundaryCred], holder := some "did:example:agent-1",
    proof := some demoPresProof }

/-- A cache entry expiring at instant 100. -/
def demoCacheEntry : CachedRoleEntry :=
  { credential_hash := "deadbeef", issuer_did := "did:example:issuer",
    verified_at := 0, expires_at := 100 }

/-- A response whose nonce differs from every nonce the middleware would
have sent, carrying an otherwise-valid presentation. -/
def c1Response : RoleCredentialResponse :=
  { nonce := "responder-chose-another-nonce", presentation := some demoPresentation,
    error := none }

/-- A store holding `demoCred` under "admin". -/
def demoStore : CredentialMap := add_credential [] demoCred

/-- A response carrying an upstream error and no presentation
(Scenario B). -/
def c9Response : RoleCredentialResponse :=
  { nonce := "n-c9", presentation := none, error := some "Role 'admin' not available" }

/-! ## Helper lemmas -/

/-- A `keyLE`-sorted list with no duplicate keys is strictly sorted. -/
theorem sorted_keyLT_of_nodup {l : List (String × String)}
    (hs : l.Sorted keyLE) (hn : (l.map Prod.fst).Nodup) : l.Sorted keyLT := by
  have hne : l.Pairwise (fun a b => a.1 ≠ b.1) := (List.pairwise_map).1 hn
  exact (hs.and hne).imp (fun h => lt_of_le_of_ne h.1 h.2)

/-- Key-sorting is invariant under permutation of entries with distinct
keys. -/
theorem sortByKey_eq_of_perm {l₁ l₂ : List (String × String)}
    (hp : l₁.Perm l₂) (hn : (l₁.map Prod.fst).Nodup) :
    sortByKey l₁ = sortByKey l₂ := by
  have hperm : (sortByKey l₁).Perm (sortByKey l₂) :=
    (List.perm_insertionSort keyLE l₁).trans
      (hp.trans (List.perm_insertionSort keyLE l₂).symm)
  have hn₂ : (l₂.map Prod.fst).Nodup := ((hp.map Prod.fst).nodup_iff).1 hn
  have hs₁ : (sortByKey l₁).Sorted keyLT :=
    sorted_keyLT_of_nodup (List.sorted_insertionSort keyLE l₁)
      ((((List.perm_insertionSort keyLE l₁).map Prod.fst).nodup_iff).2 hn)
  have hs₂ : (sortByKey l₂).Sorted keyLT :=
    sorted_keyLT_of_nodup (List.sorted_insertionSort keyLE l₂)
      ((((List.perm_insertionSort keyLE l₂).map Prod.fst).nodup_iff).2 hn₂)
  exact List.eq_of_perm_of_sorted hperm hs₁ hs₂

/-- The credential hash is invariant under permutation of the top-level
dictionary entries (distinct keys). -/
theorem hash_repr_perm (o₁ o₂ : List (String × JVal)) (hperm : o₁.Perm o₂)
    (hkeys : (o₁.map Prod.fst).Nodup) :
    credential_hash_of_repr o₁ = credential_hash_of_repr o₂ := by
  unfold credential_hash_of_repr dumpsSorted dumpObjSorted
  have hp : (o₁.map (fun kv => (kv.1, dumpVal kv.2))).Perm
      (o₂.map (fun kv => (kv.1, dumpVal kv.2))) :=
    hperm.map _
  have hk : ((o₁.map (fun kv => (kv.1, dumpVal kv.2))).map Prod.fst).Nodup := by
    simpa [List.map_map, Function.comp] using hkeys
  rw [sortByKey_eq_of_perm hp hk]

/-- Lookup after writing a key finds the written value. -/
theorem get_dictInsert_self (st : CredentialMap) (k : String) (v : RoleCredential) :
    get_credential (dictInsert st k v) k = some v := by
  induction st with
  | nil => simp [dictInsert, get_credential]
  | cons kv rest ih =>
    by_cases h : kv.1 = k
    · simp [dictInsert, h, get_credential]
    · simp [dictInsert, h, get_credential, List.find?_cons, h] at ih ⊢
      simpa [h] using ih

/-- Writing one key leaves lookups of other keys unchanged. -/
theorem get_dictInsert_ne (st : CredentialMap) (k k' : String)
    (v : RoleCredential) (h : k' ≠ k) :
    get_credential (dictInsert st k' v) k = get_credential st k := by
  induction st with
  | nil => simp [dictInsert, get_credential, h]
  | cons kv rest ih =>
    by_cases hk : kv.1 = k'
    · simp [dictInsert, hk, get_credential, List.find?_cons, h, Ne.symm h]
    · simp only [dictInsert, hk, if_false, get_credential] at ih ⊢
      by_cases hk2 : kv.1 = k
      · have hb : (kv.1 == k) = true := by simp [hk2]
        simp [List.find?_cons, hb]
      · have hb : (kv.1 == k) = false := by simp [hk2]
        simp [List.find?_cons, hb, ih]

/-- After indexing a credential under a list of roles containing `role`,
looking `role` up finds that credential. -/
theorem get_foldl_insert (c : RoleCredential) (role : String) :
    ∀ (roles : List String) (st : CredentialMap),
      (role ∈ roles ∨ get_credential st role = some c) →
      get_credential (roles.foldl (fun s r => dictInsert s r c) st) role = some c := by
  intro roles
  induction roles with
  | nil =>
    intro st h
    rcases h with h | h
    · exact absurd h (List.not_mem_nil role)
    · simpa using h
  | cons r rest ih =>
    intro st h
    simp only [List.foldl_cons]
    apply ih
    by_cases hr : r = role
    · subst hr
      right
      exact get_dictInsert_self st r c
    · rcases h with hmem | hget
      · rcases List.mem_cons.1 hmem with heq | htail
        · exact absurd heq.symm hr
        · exact Or.inl htail
      · right
        rw [get_dictInsert_ne st role r c hr]
        exact hget

/-- A successful lookup implies `has_role`. -/
theorem has_role_of_get {st : CredentialMap} {role : String} {c : RoleCredential}
    (h : get_credential st role = some c) : has_role st role = true := by
  unfold get_credential at h
  unfold has_role
  obtain ⟨kv, hfind, _⟩ := Option.map_eq_some'.1 h
  have hp := List.find?_some hfind
  simp only [] at hp
  exact List.any_eq_true.2 ⟨kv, List.mem_of_find?_eq_some hfind, hp⟩

/-- A list on which `find?` succeeds is nonempty. -/
theorem find?_nonempty {l : List RoleCredential} {c : RoleCredential}
    {p : RoleCredential → Bool} (h : l.find? p = some c) : l.isEmpty = false := by
  cases l with
  | nil => simp [List.find?] at h
  | cons a t => simp [List.isEmpty]

/-- When the first credential whose type contains "RoleCredential" fails,
`verify_presentation` returns exactly that failure. -/
theorem verify_presentation_eq_first {p : VerifiablePresentation} {c : RoleCredential}
    {r : String} {now : Time}
    (hfind : p.verifiable_credential.find?
      (fun c => c.type.contains "RoleCredential") = some c)
    (hinv : (verify_role_credential c r now).is_valid = false) :
    verify_presentation p r now = verify_role_credential c r now := by
  unfold verify_presentation
  rw [find?_nonempty hfind, hfind]
  simp [hinv]

/-- A credential without proof never passes `verify_role_credential`. -/
theorem verify_role_credential_no_proof {c : RoleCredential} {r : String} {now : Time}
    (h : c.proof = none) : (verify_role_credential c r now).is_valid = false := by
  have hs : verify_credential_signature c = false := by
    simp [verify_credential_signature, h]
  unfold verify_role_credential
  split
  · rfl
  split
  · rfl
  split
  · rfl
  simp [hs]

/-- A credential expiring strictly before `now` never passes
`verify_role_credential`. -/
theorem verify_role_credential_expired {c : RoleCredential} {r : String} {now t : Time}
    (he : c.expiration_date = some t) (hlt : t < now) :
    (verify_role_credential c r now).is_valid = false := by
  unfold verify_role_credential
  split
  · rfl
  split
  · rfl
  split
  · rfl
  · rename_i hcond
    rw [he] at hcond
    simp [hlt] at hcond

/-- A missing required role yields exactly the role-containment error. -/
theorem verify_role_credential_role_missing {c : RoleCredential} {r : String} {now : Time}
    (ht : "RoleCredential" ∈ c.type) (hr : r ∉ c.credential_subject.get_roles) :
    verify_role_credential c r now =
      { is_valid := false,
        error_message := some ("Required role '" ++ r ++ "' not found in credential") } := by
  unfold verify_role_credential
  rw [if_neg (by simpa using ht), if_pos hr]

/-- The credential selected by `find?` has "RoleCredential" in its type. -/
theorem first_found_is_role_credential {l : List RoleCredential} {c : RoleCredential}
    (h : l.find? (fun c => c.type.contains "RoleCredential") = some c) :
    "RoleCredential" ∈ c.type := by
  have hp := List.find?_some h
  simp only [] at hp
  simpa using hp

/-- The top-level keys of a serialized credential are distinct. -/
theorem credentialPairs_keys_nodup (c : RoleCredential) :
    ((credentialPairs c).map Prod.fst).Nodup := by
  obtain ⟨i, iss, ty, isd, ex, cs, pr⟩ := c
  cases ex <;> cases pr
  · show (["id", "issuer", "type", "issuanceDate", "credentialSubject"] :
      List String).Nodup
    decide
  · show (["id", "issuer", "type", "issuanceDate", "credentialSubject", "proof"] :
      List String).Nodup
    decide
  · show (["id", "issuer", "type", "issuanceDate", "expirationDate",
      "credentialSubject"] : List String).Nodup
    decide
  · show (["id", "issuer", "type", "issuanceDate", "expirationDate",
      "credentialSubject", "proof"] : List String).Nodup
    decide

/-- Parsing a credential's own serialization reproduces the credential
(pydantic round trip). -/
theorem parse_dump_roundtrip (c : RoleCredential) :
    parseCredential (credentialPairs c) = some c := by
  obtain ⟨i, iss, ty, isd, ex, ⟨sid, ro, rs⟩, pr⟩ := c
  cases ex <;> cases pr <;> cases ro <;> cases rs <;> rfl

/-! ## The claims -/

/-- Claim C1 (code evaluation at the failing input): the response nonce
differs from the nonce sent with the request, the presentation is
otherwise valid, and `authenticate_with_role` grants access anyway — the
source never compares the echoed nonce with the one it generated, so a
mismatched nonce is not rejected as a protocol violation. -/
theorem C1_nonce_mismatch_still_granted :
    c1Response.nonce ≠ "request-nonce-0001" ∧
    (authenticate_with_role "agent-1" "admin" none 0 "request-nonce-0001"
      (some c1Response)).1 = AuthOutcome.granted ["admin"] := by
  exact ⟨by decide, rfl⟩

/-- Counterexample to claim C2 as stated: a credential whose expiration
date equals the current instant is accepted by `verify_presentation`
(the source rejects only when `expiry < now`), while the claim demands
rejection at or before the current time. -/
theorem C2_counterexample_boundary_accepted :
    boundaryCred.expiration_date = some 100 ∧
    (verify_presentation boundaryPresentation "admin" 100).is_valid = true := by
  exact ⟨rfl, rfl⟩

/-- Amended claim C2: a credential whose `expiration_date` is strictly
before the current instant is rejected by `verify_presentation`
regardless of proof validity; at exactly the current instant it is not
rejected as expired. -/
theorem C2_expired_strictly_before (p : VerifiablePresentation) (r : String)
    (now t : Time) (c : RoleCredential)
    (hfind : p.verifiable_credential.find?
      (fun c => c.type.contains "RoleCredential") = some c)
    (he : c.expiration_date = some t) (hlt : t < now) :
    (verify_presentation p r now).is_valid = false := by
  rw [verify_presentation_eq_first hfind (verify_role_credential_expired he hlt)]
  exact verify_role_credential_expired he hlt

/-- Witness for the amended C2 at a strictly-past expiration. -/
theorem C2_expired_strictly_before_witness :
    boundaryCred.expiration_date = some 100 ∧ (100 : Time) < 101 ∧
    (verify_presentation boundaryPresentation "admin" 101).is_valid = false :=
  ⟨rfl, by decide,
   C2_expired_strictly_before boundaryPresentation "admin" 101 100 boundaryCred
     (by decide) rfl (by decide)⟩

/-- Claim C3: if the selected role credential of a presentation has
`proof = none`, `verify_presentation` returns `is_valid = false`,
regardless of its other content. -/
theorem C3_no_proof_never_verified (p : VerifiablePresentation) (r : String)
    (now : Time) (c : RoleCredential)
    (hfind : p.verifiable_credential.find?
      (fun c => c.type.contains "RoleCredential") = some c)
    (hproof : c.proof = none) :
    (verify_presentation p r now).is_valid = false := by
  rw [verify_presentation_eq_first hfind (verify_role_credential_no_proof hproof)]
  exact verify_role_credential_no_proof hproof

/-- Witness for C3 at a concrete proof-less credential. -/
theorem C3_no_proof_never_verified_witness :
    noProofPresentation.verifiable_credential.find?
      (fun c => c.type.contains "RoleCredential") = some noProofCred ∧
    noProofCred.proof = none ∧
    (verify_presentation noProofPresentation "admin" 0).is_valid = false :=
  ⟨by decide, by decide,
   C3_no_proof_never_verified noProofPresentation "admin" 0 noProofCred
     (by decide) (by decide)⟩

/-- Claim C4: if the required role is absent from the selected
credential's roles, `verify_presentation` fails with an error message
naming the required role, regardless of the credential's other
validity. -/
theorem C4_required_role_absent (p : VerifiablePresentation) (r : String)
    (now : Time) (c : RoleCredential)
    (hfind : p.verifiable_credential.find?
      (fun c => c.type.contains "RoleCredential") = some c)
    (hrole : r ∉ c.credential_subject.get_roles) :
    (verify_presentation p r now).is_valid = false ∧
    (verify_presentation p r now).error_message =
      some ("Required role '" ++ r ++ "' not found in credential") := by
  have heq := @verify_role_credential_role_missing c r now
    (first_found_is_role_credential hfind) hrole
  have hinv : (verify_role_credential c r now).is_valid = false := by rw [heq]
  rw [verify_presentation_eq_first hfind hinv, heq]
  exact ⟨rfl, rfl⟩

/-- Witness for C4: credential grants only "admin", required role
"manager". -/
theorem C4_required_role_absent_witness :
    demoPresentation.verifiable_credential.find?
      (fun c => c.type.contains "RoleCredential") = some demoCred ∧
    "manager" ∉ demoCred.credential_subject.get_roles ∧
    (verify_presentation demoPresentation "manager" 0).error_message =
      some "Required role 'manager' not found in credential" :=
  ⟨by decide, by decide,
   (C4_required_role_absent demoPresentation "manager" 0 demoCred
     (by decide) (by decide)).2⟩

/-- Claim C5: an unexpired cache entry for `(agent_id, required_role)`
grants immediately with `verified_roles = [required_role]`, zero remote
credential requests, zero verifications and no cache writes, whatever
the transport would have answered — so repeated calls within the TTL
issue no additional remote requests. -/
theorem C5_cache_hit_no_remote (agent_id required_role nonce : String)
    (now : Time) (e : CachedRoleEntry) (response : Option RoleCredentialResponse)
    (h : is_expired e now = false) :
    authenticate_with_role agent_id required_role (some e) now nonce response =
      (AuthOutcome.granted [required_role],
       { remote_requests := 0, verifications := 0, cache_writes := [] }) := by
  unfold authenticate_with_role
  simp [cache_hit, h]

/-- Witness for C5 at a concrete unexpired entry (Scenario C). -/
theorem C5_cache_hit_no_remote_witness :
    is_expired demoCacheEntry 50 = false ∧
    authenticate_with_role "agent-1" "manager" (some demoCacheEntry) 50 "n0" none =
      (AuthOutcome.granted ["manager"],
       { remote_requests := 0, verifications := 0, cache_writes := [] }) :=
  ⟨by decide,
   C5_cache_hit_no_remote "agent-1" "manager" "n0" 50 demoCacheEntry none (by decide)⟩

/-- Claim C6 (code evaluation at the failing input): `create_presentation`
wraps the stored credential, sets the holder, and returns `none` when the
role is absent — but the supplied challenge is ignored and the returned
presentation carries no proof at all, so no challenge-bound proof is
generated. -/
theorem C6_challenge_ignored_no_proof :
    create_presentation demoStore "admin" "did:example:x" (some "chal-1") =
      some { verifiable_credential := [demoCred], holder := some "did:example:x",
             proof := none } ∧
    create_presentation [] "admin" "did:example:x" (some "chal-1") = none := by
  exact ⟨rfl, rfl⟩

/-- Claim C7: the hash the verifier computes for a credential equals the
hash of any key-reordering of the credential's underlying dictionary
representation — the hash is a function of the key-sorted
serialization. -/
theorem C7_credential_hash_key_order_independent (c : RoleCredential)
    (o : List (String × JVal)) (hperm : (credentialPairs c).Perm o) :
    create_credential_hash c = credential_hash_of_repr o :=
  hash_repr_perm (credentialPairs c) o hperm (credentialPairs_keys_nodup c)

/-- Witness for C7: the demo credential's dictionary against a shuffled
copy of itself. -/
theorem C7_credential_hash_key_order_independent_witness :
    (credentialPairs demoCred).Perm
      [("proof", JVal.obj (proofPairs demoProof)),
       ("issuer", JVal.leaf (JLeaf.s "did:example:issuer")),
       ("id", JVal.leaf (JLeaf.s "http://example.org/credentials/admin/123")),
       ("credentialSubject", JVal.obj (subjectPairs demoSubject)),
       ("issuanceDate", JVal.leaf (JLeaf.s "2025-08-01T12:00:00Z")),
       ("type", JVal.leaf (JLeaf.arr ["VerifiableCredential", "RoleCredential"]))] ∧
    create_credential_hash demoCred =
      credential_hash_of_repr
        [("proof", JVal.obj (proofPairs demoProof)),
         ("issuer", JVal.leaf (JLeaf.s "did:example:issuer")),
         ("id", JVal.leaf (JLeaf.s "http://example.org/credentials/admin/123")),
         ("credentialSubject", JVal.obj (subjectPairs demoSubject)),
         ("issuanceDate", JVal.leaf (JLeaf.s "2025-08-01T12:00:00Z")),
         ("type", JVal.leaf (JLeaf.arr ["VerifiableCredential", "RoleCredential"]))] :=
  ⟨by decide,
   C7_credential_hash_key_order_independent demoCred _ (by decide)⟩

/-- Claim C8: exporting a stored credential and importing the exported
data into an empty store reproduces it — the role is then held and the
stored credential equals the exported one. -/
theorem C8_export_import_roundtrip (st : CredentialMap) (c : RoleCredential)
    (role : String) (h1 : get_credential st role = some c)
    (h2 : role ∈ c.credential_subject.get_roles) :
    export_credential_to_file st role = some (credentialPairs c) ∧
    import_credential_from_file (credentialPairs c) [] = some (add_credential [] c) ∧
    has_role (add_credential [] c) role = true ∧
    get_credential (add_credential [] c) role = some c := by
  have hget : get_credential (add_credential [] c) role = some c := by
    unfold add_credential
    exact get_foldl_insert c role c.credential_subject.get_roles [] (Or.inl h2)
  refine ⟨?_, ?_, has_role_of_get hget, hget⟩
  · unfold export_credential_to_file
    rw [h1]
    rfl
  · unfold import_credential_from_file
    rw [parse_dump_roundtrip]
    rfl

/-- Witness for C8 at the demo credential stored under "admin". -/
theorem C8_export_import_roundtrip_witness :
    get_credential [("admin", demoCred)] "admin" = some demoCred ∧
    "admin" ∈ demoCred.credential_subject.get_roles ∧
    has_role (add_credential [] demoCred) "admin" = true ∧
    get_credential (add_credential [] demoCred) "admin" = some demoCred :=
  ⟨by decide, by decide,
   (C8_export_import_roundtrip [("admin", demoCred)] demoCred "admin"
     (by decide) (by decide)).2.2.1,
   (C8_export_import_roundtrip [("admin", demoCred)] demoCred "admin"
     (by decide) (by decide)).2.2.2⟩

/-- Counterexample to claim C9 as stated: the denial message is the
upstream error text with the prefix "Role credential request failed: ",
not equal to the upstream error text (the cache is indeed unwritten). -/
theorem C9_counterexample_message_prefixed :
    (authenticate_with_role "agent-1" "admin" none 0 "n0" (some c9Response)).1 =
      AuthOutcome.denied
        "Role credential request failed: Role 'admin' not available" ∧
    "Role credential request failed: Role 'admin' not available" ≠
      "Role 'admin' not available" ∧
    (authenticate_with_role "agent-1" "admin" none 0 "n0" (some c9Response)).2.cache_writes
      = [] := by
  exact ⟨rfl, by decide, rfl⟩

/-- Amended claim C9: on a response carrying a non-empty error text and
no presentation, the attempt is denied with the upstream error text
prefixed by "Role credential request failed: ", nothing is verified, and
the Role Cache is not written (an empty-string error is falsy to the
source and is replaced by the default text "No valid presentation
provided"). -/
theorem C9_upstream_error_denial (agent_id required_role nonce ty rn e : String)
    (cached : Option CachedRoleEntry) (now : Time)
    (h : cache_hit cached now = false) (he : e ≠ "") :
    authenticate_with_role agent_id required_role cached now nonce
      (some { type := ty, nonce := rn, presentation := none, error := some e }) =
      (AuthOutcome.denied ("Role credential request failed: " ++ e),
       { remote_requests := 1, verifications := 0, cache_writes := [] }) := by
  unfold authenticate_with_role
  simp [h, strOrDefault, strTruthy, he]

/-- Witness for the amended C9 at Scenario B's concrete input. -/
theorem C9_upstream_error_denial_witness :
    cache_hit none (0 : Time) = false ∧
    "Role 'admin' not available" ≠ "" ∧
    authenticate_with_role "agent-1" "admin" none 0 "n0"
      (some { type := "role-credential-response", nonce := "n-c9",
              presentation := none, error := some "Role 'admin' not available" }) =
      (AuthOutcome.denied
        "Role credential request failed: Role 'admin' not available",
       { remote_requests := 1, verifications := 0, cache_writes := [] }) :=
  ⟨by decide, by decide,
   C9_upstream_error_denial "agent-1" "admin" "n0" "role-credential-response"
     "n-c9" "Role 'admin' not available" none 0 (by decide) (by decide)⟩

/-- Claim C10: the first credential whose type contains "RoleCredential"
decides the outcome — if it fails any check, the whole presentation is
rejected with exactly its result, even when a later credential would
satisfy every check. -/
theorem C10_first_role_credential_decides (p : VerifiablePresentation)
    (r : String) (now : Time) (c : RoleCredential)
    (hfind : p.verifiable_credential.find?
      (fun c => c.type.contains "RoleCredential") = some c)
    (hinv : (verify_role_credential c r now).is_valid = false) :
    verify_presentation p r now = verify_role_credential c r now :=
  verify_presentation_eq_first hfind hinv

/-- Witness for C10: the first credential has no proof and fails; the
second would satisfy every check, yet the presentation is rejected. -/
theorem C10_first_role_credential_decides_witness :
    twoCredPresentation.verifiable_credential.find?
      (fun c => c.type.contains "RoleCredential") = some noProofCred ∧
    (verify_role_credential noProofCred "admin" 0).is_valid = false ∧
    (verify_role_credential demoCred "admin" 0).is_valid = true ∧
    verify_presentation twoCredPresentation "admin" 0 =
      verify_role_credential noProofCred "admin" 0 :=
  ⟨by decide, by decide, by decide,
   C10_first_role_credential_decides twoCredPresentation "admin" 0 noProofCred
     (by decide) (by decide)⟩
